import Mathlib

/-!
Verification development for the streak correction job of the repository
(src/src/utils/streakCorrection.ts, function correctExistingStreakCounts).

Time model: timestamps are integers counting hours since an arbitrary epoch;
a calendar day is 24 hours and midnight of the day containing a timestamp t
is the largest multiple of 24 not exceeding t. The date-fns helpers used by
the source (startOfDay, differenceInDays, isSameDay, isYesterday) are
embedded below on this model; parseISO is the identity (the last_check_in
column already stores the parsed timestamp in the model). The external store
is a list of rows; the read filter gt streak_count 0 and the batched update
over an id in-list are embedded as list operations. Read failures, write
failures and unexpected thrown values are injected through a RunEnv record,
and the try/catch boundary of the source is the wrapper around correctBody.
-/

/-- date-fns startOfDay on the hour model: midnight of the calendar day that
contains t, that is t with its time-of-day component removed. -/
def startOfDay (t : Int) : Int := t - t % 24

/-- date-fns differenceInDays on the hour model: the signed number of whole
24-hour days from b to a, truncated toward zero (Int.tdiv), exactly the
full-day count the library returns. -/
def differenceInDays (a b : Int) : Int := Int.tdiv (a - b) 24

/-- date-fns isSameDay: two timestamps fall on the same calendar day. -/
def isSameDay (a b : Int) : Bool := startOfDay a == startOfDay b

/-- date-fns isYesterday relative to an explicit now: t falls on the calendar
day immediately before the day of now. -/
def isYesterday (t now : Int) : Bool := startOfDay t == startOfDay now - 24

/-- A row of the child_progress table as read by select star. Columns other
than child_id, last_check_in and streak_count are irrelevant to the job and
modelled opaquely by extra; last_check_in holds the parsed timestamp or none
for a missing value. -/
structure ChildProgress where
  child_id : String
  last_check_in : Option Int
  streak_count : Nat
  extra : List (String × String)
deriving DecidableEq, Repr

/-- The result object returned by correctExistingStreakCounts: success flag
and the optional message, resetChildren and error fields of the source. -/
structure CorrectionResult where
  success : Bool
  message : Option String := none
  resetChildren : Option (List String) := none
  error : Option String := none
deriving DecidableEq, Repr

/-- Outcome of one run: the table contents afterwards, the returned result,
and whether the batched update call was issued at all. -/
structure RunOutcome where
  state : List ChildProgress
  result : CorrectionResult
  writeIssued : Bool
deriving DecidableEq, Repr

/-- A value thrown inside the try block: either a JavaScript Error object
carrying a message, or any other thrown value. -/
inductive Thrown where
  | errorObj (msg : String)
  | nonError
deriving DecidableEq, Repr

/-- Faults injected by the environment of one run: a failing bulk read, a
failing batched update, or an unexpected thrown value. -/
structure RunEnv where
  readError : Option String := none
  writeError : Option String := none
  thrown : Option Thrown := none
deriving DecidableEq, Repr

/-- The fault-free environment. -/
def envOK : RunEnv := ⟨none, none, none⟩

/-- The message the catch clause extracts from a thrown value: the message
of an Error object, otherwise the fixed unknown-error text. -/
def errMessage : Thrown → String
  | Thrown.errorObj m => m
  | Thrown.nonError => "Unknown error occurred"

/-- The loop-body classification of the source (lines 35 to 58): a record is
pushed onto childrenToUpdate iff its last_check_in is absent, or daysElapsed,
computed by differenceInDays from the midnight-aligned today against the raw
parsed last_check_in, is greater than 1. -/
def needsStreakReset (todayStartOfDay : Int) (c : ChildProgress) : Bool :=
  match c.last_check_in with
  | none => true
  | some l => decide (1 < differenceInDays todayStartOfDay l)

/-- The list childrenToUpdate built by the source on a successful read: the
ids of the fetched records (those with streak_count greater than 0) that the
loop classifies for reset, in store order. -/
def childrenToUpdate (today : Int) (s : List ChildProgress) : List String :=
  (((s.filter fun c => decide (0 < c.streak_count)).filter
      (needsStreakReset (startOfDay today))).map fun c => c.child_id)

/-- The batched update of the source: set streak_count to 0 on every row of
the table whose child_id occurs in ids, leaving all other columns and all
other rows as they were. -/
def applyReset (ids : List String) (s : List ChildProgress) : List ChildProgress :=
  s.map fun c => if ids.contains c.child_id then { c with streak_count := 0 } else c

/-- The body of correctExistingStreakCounts inside the try block, as an
Except so that a thrown value is visible at the boundary. A some thrown in
the environment aborts the body; a read error returns the failure result; a
non-empty correction list triggers the single batched update, which either
fails with the write error or commits; an empty list skips the write. -/
def correctBody (env : RunEnv) (today : Int) (s : List ChildProgress) :
    Except Thrown RunOutcome :=
  match env.thrown with
  | some t => Except.error t
  | none =>
    match env.readError with
    | some msg => Except.ok ⟨s, ⟨false, none, none, some msg⟩, false⟩
    | none =>
      let ids := childrenToUpdate today s
      if 0 < ids.length then
        match env.writeError with
        | some msg => Except.ok ⟨s, ⟨false, none, none, some msg⟩, true⟩
        | none =>
          Except.ok ⟨applyReset ids s,
            ⟨true,
             some ("Reset streak counts for " ++ toString ids.length ++
               " children who missed check-ins"),
             some ids, none⟩, true⟩
      else
        Except.ok ⟨s, ⟨true, some "No streak count corrections needed", none, none⟩, false⟩

/-- correctExistingStreakCounts: the body wrapped in the try/catch of lines
84 to 90, converting a thrown value into the structured failure result whose
error is the extracted message. -/
def correctExistingStreakCounts (env : RunEnv) (today : Int)
    (s : List ChildProgress) : RunOutcome :=
  match correctBody env today s with
  | Except.ok o => o
  | Except.error t => ⟨s, ⟨false, none, none, some (errMessage t)⟩, false⟩

/-- Modelled from the spec for the refinement claims: calendar-day difference
with both endpoints midnight-aligned, as the spec words it. -/
def differenceInCalendarDays (a b : Int) : Int :=
  Int.tdiv (startOfDay a - startOfDay b) 24

/-- Modelled from the spec for the refinement claims: classify for reset iff
last_check_in is absent or the calendar-day difference between today and it,
midnight-aligned on both endpoints, is greater than 1. -/
def specClassified (today : Int) (c : ChildProgress) : Bool :=
  match c.last_check_in with
  | none => true
  | some l => decide (1 < differenceInCalendarDays today l)

/-- Pointwise effect of a committed fault-free run on one row: the streak is
zeroed iff the row was fetched (positive streak) and classified, and nothing
else about the row changes. -/
def resetRow (today : Int) (c : ChildProgress) : ChildProgress :=
  if 0 < c.streak_count ∧ needsStreakReset (startOfDay today) c = true then
    { c with streak_count := 0 }
  else c

theorem tdiv24_gt_one_iff (d : Int) : 1 < Int.tdiv d 24 ↔ 48 ≤ d := by
  rcases le_or_lt 0 d with h | h
  · rw [Int.tdiv_eq_ediv h (by omega)]
    omega
  · have hn : 0 ≤ -d := by omega
    have h1 : 0 ≤ Int.tdiv (-d) 24 := Int.tdiv_nonneg hn (by omega)
    have h2 : Int.tdiv (-d) 24 = -(Int.tdiv d 24) := Int.neg_tdiv d 24
    omega

theorem contains_iff_mem_str (l : List String) (a : String) :
    l.contains a = true ↔ a ∈ l := by
  simp [List.elem_iff]

theorem needsStreakReset_iff (t0 : Int) (c : ChildProgress) :
    needsStreakReset t0 c = true ↔
      (c.last_check_in = none ∨ ∃ l, c.last_check_in = some l ∧ 48 ≤ t0 - l) := by
  cases h : c.last_check_in with
  | none => simp [needsStreakReset, h]
  | some l => simp [needsStreakReset, h, differenceInDays, tdiv24_gt_one_iff]

theorem mem_childrenToUpdate_iff (today : Int) (s : List ChildProgress) (x : String) :
    x ∈ childrenToUpdate today s ↔
      ∃ c, c ∈ s ∧ 0 < c.streak_count ∧
        needsStreakReset (startOfDay today) c = true ∧ c.child_id = x := by
  simp only [childrenToUpdate, List.mem_map, List.mem_filter, decide_eq_true_eq]
  constructor
  · rintro ⟨c, ⟨⟨hc, hpos⟩, hcl⟩, hid⟩
    exact ⟨c, hc, hpos, hcl, hid⟩
  · rintro ⟨c, hc, hpos, hcl, hid⟩
    exact ⟨c, ⟨⟨hc, hpos⟩, hcl⟩, hid⟩

theorem applyReset_nil (s : List ChildProgress) : applyReset [] s = s := by
  simp [applyReset]

theorem run_ok_eq_pos (today : Int) (s : List ChildProgress)
    (h : childrenToUpdate today s ≠ []) :
    correctExistingStreakCounts envOK today s =
      ⟨applyReset (childrenToUpdate today s) s,
       ⟨true,
        some ("Reset streak counts for " ++ toString (childrenToUpdate today s).length ++
          " children who missed check-ins"),
        some (childrenToUpdate today s), none⟩, true⟩ := by
  have hl : 0 < (childrenToUpdate today s).length := List.length_pos.mpr h
  simp [correctExistingStreakCounts, correctBody, envOK, hl]

theorem run_ok_eq_nil (today : Int) (s : List ChildProgress)
    (h : childrenToUpdate today s = []) :
    correctExistingStreakCounts envOK today s =
      ⟨s, ⟨true, some "No streak count corrections needed", none, none⟩, false⟩ := by
  simp [correctExistingStreakCounts, correctBody, envOK, h]

theorem run_ok_state (today : Int) (s : List ChildProgress) :
    (correctExistingStreakCounts envOK today s).state =
      applyReset (childrenToUpdate today s) s := by
  by_cases h : childrenToUpdate today s = []
  · rw [run_ok_eq_nil today s h, h, applyReset_nil]
  · rw [run_ok_eq_pos today s h]

theorem applyReset_map_resetRow (today : Int) (s : List ChildProgress)
    (hnd : (s.map fun c => c.child_id).Nodup) :
    applyReset (childrenToUpdate today s) s = s.map (resetRow today) := by
  unfold applyReset
  refine List.map_congr_left ?_
  intro c hc
  by_cases hcl : 0 < c.streak_count ∧ needsStreakReset (startOfDay today) c = true
  · have hct : (childrenToUpdate today s).contains c.child_id = true := by
      rw [contains_iff_mem_str, mem_childrenToUpdate_iff]
      exact ⟨c, hc, hcl.1, hcl.2, rfl⟩
    rw [if_pos hct, resetRow, if_pos hcl]
  · have hct : ¬ ((childrenToUpdate today s).contains c.child_id = true) := by
      rw [contains_iff_mem_str, mem_childrenToUpdate_iff]
      rintro ⟨c2, hc2, hpos, hcl2, hid⟩
      have hce : c2 = c := List.inj_on_of_nodup_map hnd hc2 hc hid
      exact hcl ⟨hce ▸ hpos, hce ▸ hcl2⟩
    rw [if_neg hct, resetRow, if_neg hcl]

theorem childrenToUpdate_applyReset (today : Int) (s : List ChildProgress) :
    childrenToUpdate today (applyReset (childrenToUpdate today s) s) = [] := by
  rw [List.eq_nil_iff_forall_not_mem]
  intro x hx
  rw [mem_childrenToUpdate_iff] at hx
  obtain ⟨c, hc, hpos, hcl, _⟩ := hx
  unfold applyReset at hc
  obtain ⟨c0, hc0, hceq⟩ := List.mem_map.mp hc
  by_cases hct : (childrenToUpdate today s).contains c0.child_id = true
  · rw [if_pos hct] at hceq
    rw [← hceq] at hpos
    exact absurd hpos (by simp)
  · rw [if_neg hct] at hceq
    subst hceq
    exact hct ((contains_iff_mem_str _ _).mpr
      ((mem_childrenToUpdate_iff today s c0.child_id).mpr ⟨c0, hc0, hpos, hcl, rfl⟩))

theorem fresh_of_sameDay_or_yesterday (today l : Int)
    (h : isSameDay l today = true ∨ isYesterday l today = true) :
    startOfDay today - l < 48 := by
  rcases h with h | h <;>
    simp only [isSameDay, isYesterday, startOfDay, beq_iff_eq] at h ⊢ <;> omega

/-- C1 counterexample: with today at hour 58 (10:00 on day 2) and a loaded
record whose last check-in is hour 10 (10:00 on day 0), the calendar-day
difference of the claim, midnight-aligned on both endpoints, is 2, so the
claim classifies the record for reset; the code computes daysElapsed 1 from
the midnight-aligned today against the raw timestamp, does not classify the
record, and leaves its streak count at 5. -/
theorem C1_counterexample :
    specClassified 58 ⟨"A", some 10, 5, []⟩ = true ∧
    differenceInCalendarDays 58 10 = 2 ∧
    needsStreakReset (startOfDay 58) ⟨"A", some 10, 5, []⟩ = false ∧
    (correctExistingStreakCounts envOK 58 [⟨"A", some 10, 5, []⟩]).state =
      [⟨"A", some 10, 5, []⟩] := by decide

/-- C1 amended: a loaded record is classified for reset iff its lastCheckIn
is absent or at least 48 hours (two whole days) before the midnight-aligned
today, that is daysElapsed computed by the truncated whole-day difference of
differenceInDays, midnight-aligned only on the today endpoint, exceeds 1;
this agrees with the calendar-day classification whenever the stored
lastCheckIn is itself midnight-aligned; and with unique child ids exactly the
classified records have streak_count set to 0 while all others are kept. -/
theorem C1_classification (today : Int) (s : List ChildProgress)
    (hnd : (s.map fun c => c.child_id).Nodup) :
    (∀ c : ChildProgress, needsStreakReset (startOfDay today) c = true ↔
      (c.last_check_in = none ∨
        ∃ l, c.last_check_in = some l ∧ 48 ≤ startOfDay today - l)) ∧
    (∀ c : ChildProgress, ∀ l : Int, c.last_check_in = some l → l % 24 = 0 →
      needsStreakReset (startOfDay today) c = specClassified today c) ∧
    (correctExistingStreakCounts envOK today s).state = s.map (resetRow today) := by
  refine ⟨fun c => needsStreakReset_iff _ c, ?_, ?_⟩
  · intro c l hl hm
    have hst : startOfDay l = l := by
      simp [startOfDay, hm]
    simp [needsStreakReset, specClassified, hl, differenceInDays,
      differenceInCalendarDays, hst]
  · rw [run_ok_state, applyReset_map_resetRow today s hnd]

theorem C1_classification_witness :
    ((([⟨"A", some 10, 5, []⟩, ⟨"B", some 0, 7, []⟩] : List ChildProgress).map
      fun c => c.child_id).Nodup) ∧
    (correctExistingStreakCounts envOK 58
        [⟨"A", some 10, 5, []⟩, ⟨"B", some 0, 7, []⟩]).state =
      ([⟨"A", some 10, 5, []⟩, ⟨"B", some 0, 7, []⟩].map (resetRow 58)) ∧
    (correctExistingStreakCounts envOK 58
        [⟨"A", some 10, 5, []⟩, ⟨"B", some 0, 7, []⟩]).state =
      [⟨"A", some 10, 5, []⟩, ⟨"B", some 0, 0, []⟩] :=
  ⟨by decide, (C1_classification 58 _ (by decide)).2.2, by decide⟩

/-- C2 counterexample: a successful run leaves a record with streak count 5
whose last check-in, hour 10 (10:00 on day 0), is neither today nor
yesterday relative to today at hour 58 (day 2), and whose elapsed calendar
days are 2; the invariant of the claim does not hold after the run. -/
theorem C2_counterexample :
    (correctExistingStreakCounts envOK 58 [⟨"A", some 10, 5, []⟩]).result.success = true ∧
    (correctExistingStreakCounts envOK 58 [⟨"A", some 10, 5, []⟩]).state =
      [⟨"A", some 10, 5, []⟩] ∧
    isSameDay 10 58 = false ∧
    isYesterday 10 58 = false ∧
    differenceInCalendarDays 58 10 = 2 := by decide

/-- C2 amended: after a fault-free run, every record with positive
streak_count has a present lastCheckIn fewer than 48 hours before the
midnight-aligned today (which covers today and yesterday but also late hours
of the day before yesterday and future timestamps); and pointwise, every
record that had lastCheckIn absent with positive streak, or lastCheckIn at
least 48 hours before the midnight-aligned today, ends with streak_count 0. -/
theorem C2_invariant (today : Int) (s : List ChildProgress) :
    (∀ c2 ∈ (correctExistingStreakCounts envOK today s).state,
      0 < c2.streak_count →
        ∃ l, c2.last_check_in = some l ∧ startOfDay today - l < 48) ∧
    List.Forall₂ (fun c c2 =>
        (c.last_check_in = none ∨
          ∃ l, c.last_check_in = some l ∧ 48 ≤ startOfDay today - l) →
        0 < c.streak_count → c2.streak_count = 0)
      s (correctExistingStreakCounts envOK today s).state := by
  constructor
  · intro c2 hc2 hpos
    rw [run_ok_state] at hc2
    unfold applyReset at hc2
    obtain ⟨c0, hc0, hceq⟩ := List.mem_map.mp hc2
    by_cases hct : (childrenToUpdate today s).contains c0.child_id = true
    · rw [if_pos hct] at hceq
      rw [← hceq] at hpos
      exact absurd hpos (by simp)
    · rw [if_neg hct] at hceq
      subst hceq
      have hncl : ¬ (needsStreakReset (startOfDay today) c0 = true) := by
        intro hcl
        exact hct ((contains_iff_mem_str _ _).mpr
          ((mem_childrenToUpdate_iff today s c0.child_id).mpr ⟨c0, hc0, hpos, hcl, rfl⟩))
      rw [needsStreakReset_iff] at hncl
      push_neg at hncl
      obtain ⟨hnone, hlt⟩ := hncl
      cases hl : c0.last_check_in with
      | none => exact absurd hl hnone
      | some l =>
        have := hlt l hl
        exact ⟨l, rfl, by omega⟩
  · rw [run_ok_state]
    unfold applyReset
    rw [List.forall₂_map_right_iff]
    refine List.forall₂_same.mpr ?_
    intro c hc hcl hpos
    have hct : (childrenToUpdate today s).contains c.child_id = true := by
      rw [contains_iff_mem_str, mem_childrenToUpdate_iff]
      exact ⟨c, hc, hpos, (needsStreakReset_iff _ c).mpr hcl, rfl⟩
    rw [if_pos hct]

theorem C2_invariant_witness :
    (∀ c2 ∈ (correctExistingStreakCounts envOK 58 [⟨"A", some 10, 5, []⟩]).state,
      0 < c2.streak_count →
        ∃ l, c2.last_check_in = some l ∧ startOfDay 58 - l < 48) ∧
    List.Forall₂ (fun c c2 =>
        (c.last_check_in = none ∨
          ∃ l, c.last_check_in = some l ∧ 48 ≤ startOfDay 58 - l) →
        0 < c.streak_count → c2.streak_count = 0)
      ([⟨"A", some 10, 5, []⟩] : List ChildProgress)
      (correctExistingStreakCounts envOK 58 [⟨"A", some 10, 5, []⟩]).state :=
  C2_invariant 58 [⟨"A", some 10, 5, []⟩]

/-- C3 counterexample: with a single fresh record (last check-in yesterday),
the run is successful and issues no write, but the returned result omits the
resetChildren field (modelled as none) instead of carrying an empty list. -/
theorem C3_counterexample :
    (correctExistingStreakCounts envOK 58 [⟨"B", some 34, 5, []⟩]).result.success = true ∧
    (correctExistingStreakCounts envOK 58 [⟨"B", some 34, 5, []⟩]).writeIssued = false ∧
    (correctExistingStreakCounts envOK 58 [⟨"B", some 34, 5, []⟩]).result.resetChildren ≠
      some ([] : List String) := by decide

/-- C3 amended: if zero records are classified for correction then, whatever
the write environment would have done, no write call is issued, the store is
unchanged, and the result reports success with a message and with no
resetChildren field (the field is absent rather than an empty list). -/
theorem C3_no_corrections (env : RunEnv) (today : Int) (s : List ChildProgress)
    (ht : env.thrown = none) (hr : env.readError = none)
    (h0 : childrenToUpdate today s = []) :
    correctExistingStreakCounts env today s =
      ⟨s, ⟨true, some "No streak count corrections needed", none, none⟩, false⟩ := by
  simp [correctExistingStreakCounts, correctBody, ht, hr, h0]

theorem C3_no_corrections_witness :
    (envOK.thrown = none ∧ envOK.readError = none ∧
      childrenToUpdate 58 [⟨"B", some 34, 5, []⟩] = []) ∧
    correctExistingStreakCounts envOK 58 [⟨"B", some 34, 5, []⟩] =
      ⟨[⟨"B", some 34, 5, []⟩],
       ⟨true, some "No streak count corrections needed", none, none⟩, false⟩ :=
  ⟨⟨rfl, rfl, by decide⟩, C3_no_corrections envOK 58 _ rfl rfl (by decide)⟩

/-- C4: if the batched write fails after a successful read and at least one
record was classified, the store is unchanged (all or nothing), the write was
issued, and the result is the structured failure carrying the write error
message. -/
theorem C4_write_failure (env : RunEnv) (today : Int) (s : List ChildProgress)
    (msg : String) (ht : env.thrown = none) (hr : env.readError = none)
    (hw : env.writeError = some msg) (hne : childrenToUpdate today s ≠ []) :
    correctExistingStreakCounts env today s =
      ⟨s, ⟨false, none, none, some msg⟩, true⟩ := by
  have hl : 0 < (childrenToUpdate today s).length := List.length_pos.mpr hne
  simp [correctExistingStreakCounts, correctBody, ht, hr, hw, hl]

theorem C4_write_failure_witness :
    childrenToUpdate 58 [⟨"A", some 0, 5, []⟩] ≠ [] ∧
    correctExistingStreakCounts ⟨none, some "boom", none⟩ 58 [⟨"A", some 0, 5, []⟩] =
      ⟨[⟨"A", some 0, 5, []⟩], ⟨false, none, none, some "boom"⟩, true⟩ :=
  ⟨by decide,
   C4_write_failure ⟨none, some "boom", none⟩ 58 _ "boom" rfl rfl rfl (by decide)⟩

/-- C5: if the bulk read fails with a non-empty message, the function
returns the structured failure carrying that message, issues no write, and
leaves every record unchanged; the reported error is non-empty. -/
theorem C5_read_failure (env : RunEnv) (today : Int) (s : List ChildProgress)
    (msg : String) (ht : env.thrown = none) (hr : env.readError = some msg)
    (hm : msg ≠ "") :
    correctExistingStreakCounts env today s =
      ⟨s, ⟨false, none, none, some msg⟩, false⟩ ∧
    (correctExistingStreakCounts env today s).result.error ≠ some "" := by
  have he : correctExistingStreakCounts env today s =
      ⟨s, ⟨false, none, none, some msg⟩, false⟩ := by
    simp [correctExistingStreakCounts, correctBody, ht, hr]
  refine ⟨he, ?_⟩
  rw [he]
  simp [hm]

theorem C5_read_failure_witness :
    ("netfail" : String) ≠ "" ∧
    (correctExistingStreakCounts ⟨some "netfail", none, none⟩ 58 [⟨"A", some 0, 5, []⟩] =
      ⟨[⟨"A", some 0, 5, []⟩], ⟨false, none, none, some "netfail"⟩, false⟩ ∧
     (correctExistingStreakCounts ⟨some "netfail", none, none⟩ 58
        [⟨"A", some 0, 5, []⟩]).result.error ≠ some "") :=
  ⟨by decide,
   C5_read_failure ⟨some "netfail", none, none⟩ 58 _ "netfail" rfl rfl (by decide)⟩

/-- C6: idempotence: for every environment, evaluation date and store state,
running correctExistingStreakCounts twice in succession with the same today
leaves the same final store state as running it once. -/
theorem C6_idempotent (env : RunEnv) (today : Int) (s : List ChildProgress) :
    (correctExistingStreakCounts env today
      (correctExistingStreakCounts env today s).state).state =
    (correctExistingStreakCounts env today s).state := by
  obtain ⟨re, we, th⟩ := env
  cases th with
  | some t => simp [correctExistingStreakCounts, correctBody]
  | none =>
    cases re with
    | some m => simp [correctExistingStreakCounts, correctBody]
    | none =>
      cases we with
      | some m =>
        have hgen : ∀ u : List ChildProgress,
            (correctExistingStreakCounts ⟨none, some m, none⟩ today u).state = u := by
          intro u
          by_cases h : 0 < (childrenToUpdate today u).length <;>
            simp [correctExistingStreakCounts, correctBody, h]
        rw [hgen, hgen]
      | none =>
        have e : (⟨none, none, none⟩ : RunEnv) = envOK := rfl
        rw [e, run_ok_state today s,
          run_ok_state today (applyReset (childrenToUpdate today s) s),
          childrenToUpdate_applyReset, applyReset_nil]

/-- C7: frame condition: with unique child ids, a fault-free run preserves
the number of records, never increments a streak, zeroes exactly the fetched
classified records while keeping their other fields, keeps every other
record entirely unchanged, and in particular keeps every record whose
lastCheckIn is today or yesterday regardless of its streak count. -/
theorem C7_frame (today : Int) (s : List ChildProgress)
    (hnd : (s.map fun c => c.child_id).Nodup) :
    (correctExistingStreakCounts envOK today s).state.length = s.length ∧
    List.Forall₂ (fun c c2 =>
        (c2.child_id = c.child_id ∧ c2.last_check_in = c.last_check_in ∧
          c2.extra = c.extra ∧ c2.streak_count ≤ c.streak_count) ∧
        (0 < c.streak_count ∧ needsStreakReset (startOfDay today) c = true →
          c2 = { c with streak_count := 0 }) ∧
        (¬ (0 < c.streak_count ∧ needsStreakReset (startOfDay today) c = true) →
          c2 = c) ∧
        (∀ l, c.last_check_in = some l →
          (isSameDay l today = true ∨ isYesterday l today = true) → c2 = c))
      s (correctExistingStreakCounts envOK today s).state := by
  have hst : (correctExistingStreakCounts envOK today s).state =
      s.map (resetRow today) := by
    rw [run_ok_state, applyReset_map_resetRow today s hnd]
  constructor
  · rw [hst, List.length_map]
  · rw [hst, List.forall₂_map_right_iff]
    refine List.forall₂_same.mpr ?_
    intro c hc
    by_cases hcl : 0 < c.streak_count ∧ needsStreakReset (startOfDay today) c = true
    · refine ⟨?_, fun _ => ?_, fun hn => absurd hcl hn, ?_⟩
      · rw [resetRow, if_pos hcl]
        exact ⟨rfl, rfl, rfl, Nat.zero_le _⟩
      · rw [resetRow, if_pos hcl]
      · intro l hl hsame
        exfalso
        have hfresh := fresh_of_sameDay_or_yesterday today l hsame
        rcases (needsStreakReset_iff _ c).mp hcl.2 with hnone | ⟨l2, hl2, hge⟩
        · rw [hl] at hnone
          exact Option.noConfusion hnone
        · rw [hl] at hl2
          injection hl2 with he
          omega
    · have hr : resetRow today c = c := by
        rw [resetRow, if_neg hcl]
      rw [hr]
      exact ⟨⟨rfl, rfl, rfl, le_refl _⟩, fun h => absurd h hcl, fun _ => rfl,
        fun _ _ _ => rfl⟩

theorem C7_frame_witness :
    ((([⟨"A", some 0, 5, []⟩, ⟨"B", some 34, 9, []⟩] : List ChildProgress).map
      fun c => c.child_id).Nodup) ∧
    ((correctExistingStreakCounts envOK 58
        [⟨"A", some 0, 5, []⟩, ⟨"B", some 34, 9, []⟩]).state.length =
      ([⟨"A", some 0, 5, []⟩, ⟨"B", some 34, 9, []⟩] : List ChildProgress).length ∧
     List.Forall₂ (fun c c2 =>
        (c2.child_id = c.child_id ∧ c2.last_check_in = c.last_check_in ∧
          c2.extra = c.extra ∧ c2.streak_count ≤ c.streak_count) ∧
        (0 < c.streak_count ∧ needsStreakReset (startOfDay 58) c = true →
          c2 = { c with streak_count := 0 }) ∧
        (¬ (0 < c.streak_count ∧ needsStreakReset (startOfDay 58) c = true) →
          c2 = c) ∧
        (∀ l, c.last_check_in = some l →
          (isSameDay l 58 = true ∨ isYesterday l 58 = true) → c2 = c))
      ([⟨"A", some 0, 5, []⟩, ⟨"B", some 34, 9, []⟩] : List ChildProgress)
      (correctExistingStreakCounts envOK 58
        [⟨"A", some 0, 5, []⟩, ⟨"B", some 34, 9, []⟩]).state) ∧
    (correctExistingStreakCounts envOK 58
        [⟨"A", some 0, 5, []⟩, ⟨"B", some 34, 9, []⟩]).state =
      [⟨"A", some 0, 0, []⟩, ⟨"B", some 34, 9, []⟩] :=
  ⟨by decide, C7_frame 58 _ (by decide), by decide⟩

/-- C8: on a successful fault-free run in which at least one record was
classified, the result has success true, carries the message of the source,
and its resetChildren is exactly the list of classified child ids; an id is
in that list iff some record of the store with positive streak count was
classified for reset under it. -/
theorem C8_result (today : Int) (s : List ChildProgress)
    (hne : childrenToUpdate today s ≠ []) :
    (correctExistingStreakCounts envOK today s).result.success = true ∧
    (correctExistingStreakCounts envOK today s).result.message =
      some ("Reset streak counts for " ++
        toString (childrenToUpdate today s).length ++
        " children who missed check-ins") ∧
    (correctExistingStreakCounts envOK today s).result.resetChildren =
      some (childrenToUpdate today s) ∧
    (∀ x : String, x ∈ childrenToUpdate today s ↔
      ∃ c, c ∈ s ∧ 0 < c.streak_count ∧
        needsStreakReset (startOfDay today) c = true ∧ c.child_id = x) := by
  rw [run_ok_eq_pos today s hne]
  exact ⟨rfl, rfl, rfl, fun x => mem_childrenToUpdate_iff today s x⟩

theorem C8_result_witness :
    childrenToUpdate 106 [⟨"A", some 34, 5, []⟩, ⟨"B", some 82, 5, []⟩] ≠ [] ∧
    ((correctExistingStreakCounts envOK 106
        [⟨"A", some 34, 5, []⟩, ⟨"B", some 82, 5, []⟩]).result.success = true ∧
     (correctExistingStreakCounts envOK 106
        [⟨"A", some 34, 5, []⟩, ⟨"B", some 82, 5, []⟩]).result.message =
      some ("Reset streak counts for " ++
        toString (childrenToUpdate 106
          [⟨"A", some 34, 5, []⟩, ⟨"B", some 82, 5, []⟩]).length ++
        " children who missed check-ins") ∧
     (correctExistingStreakCounts envOK 106
        [⟨"A", some 34, 5, []⟩, ⟨"B", some 82, 5, []⟩]).result.resetChildren =
      some (childrenToUpdate 106 [⟨"A", some 34, 5, []⟩, ⟨"B", some 82, 5, []⟩]) ∧
     (∀ x : String,
        x ∈ childrenToUpdate 106 [⟨"A", some 34, 5, []⟩, ⟨"B", some 82, 5, []⟩] ↔
        ∃ c, c ∈ ([⟨"A", some 34, 5, []⟩, ⟨"B", some 82, 5, []⟩] : List ChildProgress) ∧
          0 < c.streak_count ∧
          needsStreakReset (startOfDay 106) c = true ∧ c.child_id = x)) ∧
    ("A" ∈ childrenToUpdate 106 [⟨"A", some 34, 5, []⟩, ⟨"B", some 82, 5, []⟩] ∧
     ¬ ("B" ∈ childrenToUpdate 106 [⟨"A", some 34, 5, []⟩, ⟨"B", some 82, 5, []⟩]) ∧
     (correctExistingStreakCounts envOK 106
        [⟨"A", some 34, 5, []⟩, ⟨"B", some 82, 5, []⟩]).state =
      [⟨"A", some 34, 0, []⟩, ⟨"B", some 82, 5, []⟩]) :=
  ⟨by decide, C8_result 106 _ (by decide), by decide⟩

/-- C9: totality at the boundary: whenever the body ends with a thrown
value, the wrapper returns the structured failure whose error is the message
of a thrown Error object, or the fixed unknown-error text for any other
thrown value; whenever the body completes normally the wrapper returns its
outcome unchanged, so every input yields a structured result object. -/
theorem C9_catch_boundary (env : RunEnv) (today : Int) (s : List ChildProgress) :
    (∀ t, correctBody env today s = Except.error t →
      correctExistingStreakCounts env today s =
        ⟨s, ⟨false, none, none, some (errMessage t)⟩, false⟩) ∧
    (∀ o, correctBody env today s = Except.ok o →
      correctExistingStreakCounts env today s = o) ∧
    (∀ m, errMessage (Thrown.errorObj m) = m) ∧
    errMessage Thrown.nonError = "Unknown error occurred" := by
  refine ⟨?_, ?_, fun m => rfl, rfl⟩
  · intro t ht
    unfold correctExistingStreakCounts
    rw [ht]
  · intro o ho
    unfold correctExistingStreakCounts
    rw [ho]

theorem C9_catch_boundary_witness :
    correctBody ⟨none, none, some (Thrown.errorObj "boom")⟩ 58 [] =
      Except.error (Thrown.errorObj "boom") ∧
    correctExistingStreakCounts ⟨none, none, some (Thrown.errorObj "boom")⟩ 58 [] =
      ⟨[], ⟨false, none, none, some "boom"⟩, false⟩ :=
  ⟨rfl, (C9_catch_boundary ⟨none, none, some (Thrown.errorObj "boom")⟩ 58 []).1 _ rfl⟩

/-- C10: a record with positive streak count whose lastCheckIn is at or
after the start of today has daysElapsed at most 0, is not classified for
reset, and with unique child ids survives a fault-free run unchanged:
future-dated check-in timestamps are treated as fresh. -/
theorem C10_future_fresh (today l : Int) (c : ChildProgress)
    (s : List ChildProgress) (hl : c.last_check_in = some l)
    (hfut : startOfDay today ≤ l) (hpos : 0 < c.streak_count) (hc : c ∈ s)
    (hnd : (s.map fun x => x.child_id).Nodup) :
    differenceInDays (startOfDay today) l ≤ 0 ∧
    needsStreakReset (startOfDay today) c = false ∧
    c ∈ (correctExistingStreakCounts envOK today s).state := by
  have hd : differenceInDays (startOfDay today) l ≤ 0 := by
    unfold differenceInDays
    have h1 : startOfDay today - l ≤ 0 := by omega
    have h2 : 0 ≤ Int.tdiv (-(startOfDay today - l)) 24 :=
      Int.tdiv_nonneg (by omega) (by omega)
    have h3 : Int.tdiv (-(startOfDay today - l)) 24 =
        -(Int.tdiv (startOfDay today - l) 24) := Int.neg_tdiv _ 24
    omega
  have hns : needsStreakReset (startOfDay today) c = false := by
    cases hb : needsStreakReset (startOfDay today) c with
    | false => rfl
    | true =>
      exfalso
      rcases (needsStreakReset_iff _ c).mp hb with hnone | ⟨l2, hl2, hge⟩
      · rw [hl] at hnone
        exact Option.noConfusion hnone
      · rw [hl] at hl2
        injection hl2 with he
        omega
  refine ⟨hd, hns, ?_⟩
  rw [run_ok_state, applyReset_map_resetRow today s hnd]
  have hr : resetRow today c = c := by
    rw [resetRow, if_neg]
    rintro ⟨h1, h2⟩
    rw [hns] at h2
    exact Bool.noConfusion h2
  exact hr ▸ List.mem_map_of_mem (resetRow today) hc

theorem C10_future_fresh_witness :
    ((⟨"F", some 72, 4, []⟩ : ChildProgress).last_check_in = some 72 ∧
      startOfDay 58 ≤ 72 ∧
      0 < (⟨"F", some 72, 4, []⟩ : ChildProgress).streak_count ∧
      (⟨"F", some 72, 4, []⟩ : ChildProgress) ∈
        ([⟨"F", some 72, 4, []⟩] : List ChildProgress) ∧
      (([⟨"F", some 72, 4, []⟩] : List ChildProgress).map fun x => x.child_id).Nodup) ∧
    (differenceInDays (startOfDay 58) 72 ≤ 0 ∧
     needsStreakReset (startOfDay 58) ⟨"F", some 72, 4, []⟩ = false ∧
     (⟨"F", some 72, 4, []⟩ : ChildProgress) ∈
       (correctExistingStreakCounts envOK 58 [⟨"F", some 72, 4, []⟩]).state) :=
  ⟨by decide,
   C10_future_fresh 58 72 _ _ rfl (by decide) (by decide) (by decide) (by decide)⟩
